import Mathlib

/-!
Verification development for the cfde-submit CLI (`cfde_client/main.py`).

The embedding models each CLI command as a pure function. Interactive
answers, the session-state file and the outcome of the remote workflow or
auth client call are explicit parameters; printed lines, the written state
record and the resulting file content are returned explicitly. Python
values appearing in the JSON state dict are modelled by `PyVal` (a JSON
null and a Python `None` both become `PyVal.vnone`, exactly as `json.load`
maps null to `None`).
-/

namespace Cfde

/-- A Python/JSON value as it occurs in the session-state dict. -/
inductive PyVal where
  | vnone
  | vstr (s : String)
  | vnum (n : Int)
  | vbool (b : Bool)
  deriving DecidableEq, Repr

/-- Python truthiness of a `PyVal` (used by `or` and `if not x`). -/
def truthy : PyVal → Bool
  | .vnone => false
  | .vstr s => s ≠ ""
  | .vnum n => n ≠ 0
  | .vbool b => b

/-- A click option of type string with default `None`, as a `PyVal`. -/
def optToVal : Option String → PyVal
  | none => .vnone
  | some s => .vstr s

/-- Python `a or b` on values. -/
def pyOr (a b : PyVal) : PyVal := if truthy a then a else b

/-- Python truthiness of a click string option. -/
def optTruthy (o : Option String) : Bool := truthy (optToVal o)

/-- Python `str()` of a value, as used by `"...".format(x)`. -/
def pyStr : PyVal → String
  | .vnone => "None"
  | .vstr s => s
  | .vnum n => toString n
  | .vbool b => if b then "True" else "False"

/-- The session-state dict: an insertion-ordered association list with
unique keys, mirroring a Python dict loaded from JSON. -/
abbrev State := List (String × PyVal)

/-- `state.get(key)`: the stored value, or `None` when absent. -/
def getKey : State → String → PyVal
  | [], _ => .vnone
  | (k, v) :: rest, key => if k = key then v else getKey rest key

/-- `state[key] = v`: replace the value at an existing key in place,
or append a new binding, as a Python dict assignment does. -/
def setKey : State → String → PyVal → State
  | [], key, v => [(key, v)]
  | (k, w) :: rest, key, v =>
      if k = key then (k, v) :: rest else (k, w) :: setKey rest key v

/-- On-disk bytes of the state file, abstracted: either a record that
`json.load` parses, or content that makes it raise `JSONDecodeError`. -/
inductive FileData where
  | record (s : State)
  | malformed
  deriving DecidableEq, Repr

/-- A file that may not exist. -/
abbrev FileContent := Option FileData

/-- Lines 46-54: `open` + `json.load` with only `FileNotFoundError`
caught. A missing file gives the empty record; unparsable content raises
(`.error`), which `run` does not catch. -/
def loadState : FileContent → Except Unit State
  | none => .ok []
  | some (.record s) => .ok s
  | some .malformed => .error ()

/-- One primitive file operation of the state write at lines 132-133. -/
inductive FileOp where
  | truncate
  | writeAll (s : State)
  deriving DecidableEq, Repr

/-- Effect of one operation on the visible file: `open(path, 'w')`
truncates the file (an empty file is unparsable JSON), then `json.dump`
writes the whole record. -/
def applyOp : FileContent → FileOp → FileContent
  | _, .truncate => some .malformed
  | _, .writeAll s => some (.record s)

/-- Visible file after a sequence of operations (a crash corresponds to
stopping after a prefix of the sequence). -/
def applyOps (fc : FileContent) (ops : List FileOp) : FileContent :=
  ops.foldl applyOp fc

/-- The operation sequence of `open(client_state_file, 'w')` followed by
`json.dump(state, out)`: a plain truncating write, no temporary file and
no rename. -/
def saveOps (s : State) : List FileOp := [.truncate, .writeAll s]

/-- File content after the write at lines 132-133 completes. -/
def writeFile (fc : FileContent) (s : State) : FileContent :=
  applyOps fc (saveOps s)

/-- A Python exception: its `args` tuple, its `repr` and its `str`. -/
structure PyExn where
  args : List PyVal
  rep : String
  msg : String
  deriving DecidableEq, Repr

/-- `input(...).strip().lower() in ["y", "yes"]`. -/
def isYes (ans : String) : Bool :=
  ans.trim.toLower = "y" || ans.trim.toLower = "yes"

/-- Lines 73-92: the email decision. Returns the resolved `author_email`
and `save_email`; `none` in the second component means no branch of the
`if/elif/elif` chain assigned `save_email`, so the variable is unbound.
`emailInput` and `saveInput` are the raw interactive answers. -/
def resolveEmail (author_email : Option String) (state_email : PyVal)
    (emailInput saveInput : String) : PyVal × Option Bool :=
  match author_email with
  | some a =>
      if state_email ≠ PyVal.vnone ∧ state_email ≠ PyVal.vstr a then
        (PyVal.vstr a, some (isYes saveInput))
      else
        (PyVal.vstr a, none)
  | none =>
      if state_email ≠ PyVal.vnone then
        (state_email, some false)
      else
        (PyVal.vstr emailInput.trim, some (isYes saveInput))

/-- Configuration constants imported from the `cfde_client` package
(`CONFIG["EP_URL"]`, `CONFIG["EP_UUID"]`). -/
structure Config where
  EP_URL : String
  EP_UUID : String
  deriving DecidableEq, Repr

/-- The `run` command options that the modelled control flow reads. -/
structure RunArgs where
  author_email : Option String
  dry_run : Bool
  verbose : Bool
  service_instance : Option String
  deriving DecidableEq, Repr

/-- Structured result dict of `start_deriva_flow` (external interface). -/
structure FlowResult where
  success : Bool
  error : String
  message : String
  fair_re_dest_path : String
  flow_id : String
  flow_instance_id : String
  deriving DecidableEq, Repr

/-- Outcome of the `start_deriva_flow` call: an exception or a result. -/
inductive FlowOutcome where
  | exn (e : PyExn)
  | res (r : FlowResult)
  deriving DecidableEq, Repr

/-- Ways the `run` command itself raises out of the command body. -/
inductive RunErr where
  | stateParseError
  | unboundSaveEmail
  deriving DecidableEq, Repr

/-- Observable result of a completed `run`: final state-file content, the
record passed to `json.dump` when the write happened, printed lines. -/
structure RunOut where
  file : FileContent
  saved : Option State
  output : List String
  deriving DecidableEq, Repr

/-- `os.path.basename`, for slash-separated paths. -/
def basename (p : String) : String := (p.splitOn "/").getLastD ""

/-- `os.path.dirname`, for slash-separated paths. -/
def dirname (p : String) : String :=
  String.intercalate "/" (p.splitOn "/").dropLast

/-- Print sites of the email decision (lines 77-78, 86, 88-89). -/
def emailMsgs (author_email : Option String) (state_email : PyVal)
    (verbose : Bool) : List String :=
  match author_email with
  | some a =>
      if state_email ≠ PyVal.vnone ∧ state_email ≠ PyVal.vstr a then
        if verbose then ["Saved email mismatch with provided email"] else []
      else []
  | none =>
      if state_email ≠ PyVal.vnone then
        ["Using saved email '" ++ pyStr state_email ++ "'"]
      else
        if verbose then ["No saved email found and no email provided"] else []

/-- Lines printed by `run` before the flow call: the load message
(lines 49-54), "Determining author email" (line 71), the email-branch
message, the save notice (lines 96-99) and "Initializing Flow"
(lines 102-103). -/
def runMsgs (args : RunArgs) (file : FileContent) (state : State)
    (email : PyVal) (sv : Bool) : List String :=
  (if args.verbose then
     [match file with
      | none => "No previous state found"
      | _ => "Loaded previous state"]
   else [])
  ++ (if args.verbose then ["Determining author email"] else [])
  ++ emailMsgs args.author_email (getKey state "author_email") args.verbose
  ++ (if sv ∧ args.verbose then
        ["Email '" ++ pyStr email ++ "' will be saved if the Flow "
          ++ "initialization is successful and this is not a dry run"]
      else [])
  ++ (if args.verbose then ["Initializing Flow"] else [])

/-- Lines 127-131: the state updates of a successful non-dry run. -/
def runUpdatedState (cfg : Config) (args : RunArgs) (state1 : State)
    (r : FlowResult) : State :=
  let http_link := cfg.EP_URL ++ r.fair_re_dest_path
  let globus_web_link := "https://app.globus.org/file-manager?origin_id="
      ++ cfg.EP_UUID ++ "&origin_path=" ++ dirname r.fair_re_dest_path
  setKey (setKey (setKey (setKey (setKey state1
    "service_instance" (optToVal args.service_instance))
    "flow_id" (PyVal.vstr r.flow_id))
    "flow_instance_id" (PyVal.vstr r.flow_instance_id))
    "http_link" (PyVal.vstr http_link))
    "globus_web_link" (PyVal.vstr globus_web_link)

/-- Lines 134-139: the save notice and the two link messages. -/
def runLinkMsgs (cfg : Config) (args : RunArgs) (r : FlowResult) :
    List String :=
  (if args.verbose then ["State saved"] else [])
  ++ ["\nThe BDBag with your data is named '" ++ basename r.fair_re_dest_path
        ++ "', and is available through Globus here:\n"
        ++ ("https://app.globus.org/file-manager?origin_id=" ++ cfg.EP_UUID
             ++ "&origin_path=" ++ dirname r.fair_re_dest_path) ++ "\n",
      "You BDBag is also available via direct HTTP download here:\n"
        ++ (cfg.EP_URL ++ r.fair_re_dest_path)]

/-- The `run` command (lines 39-139). Bag-kwargs and ACL inputs feed only
into the external flow call and are absorbed into `flow`. A `.error`
result models an exception escaping the command body:
`stateParseError` for `json.load` on an unparsable state file, and
`unboundSaveEmail` for the `UnboundLocalError` that line 94
(`if save_email:`) raises when no branch of lines 76-92 assigned
`save_email`. -/
def run (cfg : Config) (args : RunArgs) (file : FileContent)
    (emailInput saveInput : String) (flow : FlowOutcome) :
    Except RunErr RunOut :=
  match loadState file with
  | .error _ => .error .stateParseError
  | .ok state =>
    match resolveEmail args.author_email (getKey state "author_email")
        emailInput saveInput with
    | (_, none) => .error .unboundSaveEmail
    | (email, some sv) =>
      let msgs := runMsgs args file state email sv
      let state1 := if sv then setKey state "author_email" email else state
      match flow with
      | .exn e =>
          .ok { file := file, saved := none,
                output := msgs ++ ["Error while starting Flow: " ++ e.rep] }
      | .res r =>
          if r.success = false then
            .ok { file := file, saved := none,
                  output := msgs
                    ++ ["Error during Flow startup: " ++ r.error] }
          else if args.dry_run then
            .ok { file := file, saved := none, output := msgs ++ [r.message] }
          else
            let newState := runUpdatedState cfg args state1 r
            .ok { file := writeFile file newState, saved := some newState,
                  output := msgs ++ [r.message] ++ runLinkMsgs cfg args r }

/-- The `status` command options (lines 143-146). -/
structure StatusArgs where
  flow_id : Option String
  flow_instance_id : Option String
  raw : Bool
  deriving DecidableEq, Repr

/-- Structured result of `check_status` (external interface): its
`clean_status` field and its sorted, indented `json.dumps` form. -/
structure StatusResult where
  clean_status : String
  rawDump : String
  deriving DecidableEq, Repr

/-- Outcome of the `CfdeClient` construction and `check_status` call in
`status` (lines 164-165): the construction raises, the check raises, or
the check returns a result. -/
inductive StatusOutcome where
  | ctorExn (e : PyExn)
  | checkExn (e : PyExn)
  | res (r : StatusResult)
  deriving DecidableEq, Repr

/-- Result of the flow-identifier resolution block (lines 149-162). -/
inductive Resolution where
  | noBlock
  | failed
  | resolved (fid fiid svc : PyVal)
  deriving DecidableEq, Repr

/-- Lines 149-162. When both option values are truthy the whole block is
skipped (`noBlock`) and the local `service_instance` is never assigned.
Otherwise the state file is read: `FileNotFoundError` and `ValueError`
(which includes `json.JSONDecodeError`) are both caught and yield
`failed`; a still-missing identifier raises the `ValueError` of line 159,
also caught, also `failed`. -/
def resolveIds (flow_id flow_instance_id : Option String)
    (file : FileContent) : Resolution :=
  if optTruthy flow_id ∧ optTruthy flow_instance_id then .noBlock
  else
    match file with
    | none => .failed
    | some .malformed => .failed
    | some (.record s) =>
        let fid := pyOr (optToVal flow_id) (getKey s "flow_id")
        let fiid := pyOr (optToVal flow_instance_id)
            (getKey s "flow_instance_id")
        if truthy fid ∧ truthy fiid then
          .resolved fid fiid (getKey s "service_instance")
        else .failed

/-- Line 161's message. -/
def notStartedMsg : String :=
  "Flow not started and flow-id or flow-instance-id not specified"

/-- The `UnboundLocalError` raised at line 164 when `service_instance`
was never assigned because lines 150-162 were skipped. -/
def unboundServiceInstanceExn : PyExn :=
  { args := [.vstr
      "local variable 'service_instance' referenced before assignment"],
    rep := "UnboundLocalError(\"local variable 'service_instance' "
      ++ "referenced before assignment\")",
    msg := "local variable 'service_instance' referenced before assignment" }

/-- The `status` command (lines 147-177). Returns the printed lines and,
when `check_status` was invoked, the identifiers it was called with
(`none` when no remote status check happened). In the `noBlock` case,
evaluating the unassigned `service_instance` at line 164 raises an
`UnboundLocalError` inside the `try`, which the generic
`except Exception` at line 166 catches. -/
def status (args : StatusArgs) (file : FileContent)
    (outcome : StatusOutcome) : List String × Option (PyVal × PyVal) :=
  match resolveIds args.flow_id args.flow_instance_id file with
  | .failed => ([notStartedMsg], none)
  | .noBlock =>
      let fid := optToVal args.flow_id
      let e := unboundServiceInstanceExn
      let err := if args.raw then e.rep else e.msg
      (["Error checking status for Flow '" ++ pyStr fid ++ "': " ++ err],
       none)
  | .resolved fid fiid _svc =>
      match outcome with
      | .ctorExn e =>
          let err := if args.raw then e.rep else e.msg
          (["Error checking status for Flow '" ++ pyStr fid ++ "': " ++ err],
           none)
      | .checkExn e =>
          let err := if args.raw then e.rep else e.msg
          (["Error checking status for Flow '" ++ pyStr fid ++ "': " ++ err],
           some (fid, fiid))
      | .res r =>
          ((if args.raw then [r.rawDump] else [r.clean_status]),
           some (fid, fiid))

/-- Where standard input reads from. -/
inductive StdinSrc where
  | real
  | blankLine
  deriving DecidableEq, Repr

/-- Where standard output writes to. -/
inductive StdoutDst where
  | real
  | devnull
  deriving DecidableEq, Repr

/-- The process's stream bindings (`sys.stdin`, `sys.stdout`). -/
structure Streams where
  stdin : StdinSrc
  stdout : StdoutDst
  deriving DecidableEq, Repr

/-- Outcome of the probe inside `logout`: `CfdeClient` construction
raises, construction succeeds but `client.logout()` raises, or both
succeed. -/
inductive LogoutOutcome where
  | ctorExn (e : PyExn)
  | logoutExn (e : PyExn)
  | ok
  deriving DecidableEq, Repr

/-- Line 217's test: `len(e.args) >= 3 and e.args[2] == "invalid_grant"`. -/
def isInvalidGrant (e : PyExn) : Bool :=
  e.args.length ≥ 3 ∧ e.args.getD 2 .vnone = .vstr "invalid_grant"

/-- The `logout` command (lines 193-225), with `s0` the stream bindings
on entry. Returns either the raised exception together with the stream
bindings left behind (`finally` runs before the re-raise), or the stream
bindings and the lines printed to the original stdout. -/
def logout (s0 : Streams) (outcome : LogoutOutcome) :
    Except (PyExn × Streams) (Streams × List String) :=
  let msgs0 := ["Logging out and revoking tokens"]
  let old_stdin := s0.stdin
  let s1 : Streams := { s0 with stdin := .blankLine }
  let old_stdout := s1.stdout
  let _s2 : Streams := { s1 with stdout := .devnull }
  let restored : Streams := { stdin := old_stdin, stdout := old_stdout }
  match outcome with
  | .ok => .ok (restored, msgs0 ++ ["You are logged out."])
  | .ctorExn e =>
      if isInvalidGrant e then .ok (restored, msgs0 ++ ["You are logged out."])
      else .error (e, restored)
  | .logoutExn e =>
      if isInvalidGrant e then .ok (restored, msgs0 ++ ["You are logged out."])
      else .error (e, restored)

theorem getKey_setKey_same (s : State) (k : String) (v : PyVal) :
    getKey (setKey s k v) k = v := by
  induction s with
  | nil => simp [setKey, getKey]
  | cons hd tl ih =>
      obtain ⟨a, w⟩ := hd
      by_cases h : a = k
      · simp [setKey, getKey, h]
      · simp [setKey, getKey, h, ih]

theorem getKey_setKey_ne (s : State) (k k' : String) (v : PyVal)
    (h : k ≠ k') : getKey (setKey s k v) k' = getKey s k' := by
  induction s with
  | nil => simp [setKey, getKey, h]
  | cons hd tl ih =>
      obtain ⟨a, w⟩ := hd
      by_cases ha : a = k
      · subst ha
        simp [setKey, getKey, h]
      · by_cases ha' : a = k'
        · simp [setKey, getKey, ha, ha', Ne.symm h]
        · simp [setKey, getKey, ha, ha', ih]

/-- C1: the email decision is not total: with a provided email and no
saved email (fourth decision-table row), no branch of lines 76-92 assigns
`save_email`, and line 94 (`if save_email:`) then raises
`UnboundLocalError`, so the `run` command crashes instead of proceeding
with `should_save = false` as the specification requires. -/
theorem email_fourth_case_unbound_save :
    resolveEmail (some "a@x") PyVal.vnone "" "" = (PyVal.vstr "a@x", none) ∧
    run { EP_URL := "u", EP_UUID := "g" }
        { author_email := some "a@x", dry_run := false, verbose := false,
          service_instance := none }
        none "" ""
        (.res { success := true, error := "", message := "m",
                fair_re_dest_path := "/p/b.zip", flow_id := "F",
                flow_instance_id := "I" })
      = .error RunErr.unboundSaveEmail := by
  exact ⟨rfl, rfl⟩

/-- C4: with both `--flow-id` and `--flow-instance-id` supplied
explicitly, the resolution block of lines 149-162 is skipped, the local
`service_instance` is never assigned, and line 164 raises an
`UnboundLocalError` that the generic handler catches: the command prints
an error and never calls the external status check, even though a valid
result was available and both identifiers resolved. -/
theorem status_both_explicit_no_remote_call :
    status { flow_id := some "F1", flow_instance_id := some "I1",
             raw := false }
        (some (.record [("service_instance", PyVal.vstr "old"),
                        ("flow_id", PyVal.vstr "F2"),
                        ("flow_instance_id", PyVal.vstr "I2")]))
        (.res { clean_status := "clean", rawDump := "rawdump" })
      = (["Error checking status for Flow 'F1': local variable "
            ++ "'service_instance' referenced before assignment"], none) := by
  rfl

/-- C6 counterexample: the state write is not atomic. Starting from a
file holding the record `flow_id = "F"`, stopping after the first
operation of `saveOps` (the truncation performed by `open(path, 'w')`)
leaves an unparsable file that is neither the old nor the new record. -/
theorem save_not_atomic :
    applyOps (some (.record [("flow_id", PyVal.vstr "F")]))
        ((saveOps [("flow_id", PyVal.vstr "G")]).take 1)
      = some FileData.malformed ∧
    some FileData.malformed
      ≠ some (FileData.record [("flow_id", PyVal.vstr "F")]) ∧
    some FileData.malformed
      ≠ applyOps (some (.record [("flow_id", PyVal.vstr "F")]))
          (saveOps [("flow_id", PyVal.vstr "G")]) := by
  refine ⟨rfl, by simp, by simp [applyOps, saveOps, applyOp]⟩

/-- C6 amended: the write of lines 132-133 truncates the file and then
writes the whole merged record in place; a completed save leaves exactly
the record handed to `json.dump`, but a crash after the truncation and
before the write leaves an unparsable file visible (no temporary file and
rename is used). -/
theorem save_truncate_then_write (fc : FileContent) (s : State) :
    writeFile fc s = some (.record s) ∧
    applyOps fc ((saveOps s).take 1) = some FileData.malformed := by
  exact ⟨rfl, rfl⟩

/-- C9: load returns the parsed record for an existing well-formed file,
the empty record when the file does not exist, and raises on a malformed
file; `run` surfaces the parse error instead of swallowing it, and with a
missing file `run` behaves exactly as with an empty record (same printed
output and same write). -/
theorem loadState_contract (s : State) (cfg : Config) (args : RunArgs)
    (emailInput saveInput : String) (flow : FlowOutcome)
    (hv : args.verbose = false) :
    loadState none = .ok [] ∧
    loadState (some (.record s)) = .ok s ∧
    loadState (some .malformed) = .error () ∧
    run cfg args (some .malformed) emailInput saveInput flow
      = .error RunErr.stateParseError ∧
    (run cfg args none emailInput saveInput flow).map
        (fun o => (o.output, o.saved))
      = (run cfg args (some (.record [])) emailInput saveInput flow).map
          (fun o => (o.output, o.saved)) := by
  refine ⟨rfl, rfl, rfl, rfl, ?_⟩
  rcases hres : resolveEmail args.author_email PyVal.vnone
      emailInput saveInput with ⟨em, osv⟩
  have hres' : resolveEmail args.author_email (getKey [] "author_email")
      emailInput saveInput = (em, osv) := by simpa [getKey] using hres
  cases osv with
  | none => simp [run, loadState, hres']
  | some sv =>
      cases flow with
      | exn e => simp [run, loadState, hres', runMsgs, hv, Except.map]
      | res r =>
          by_cases hs : r.success = false
          · simp [run, loadState, hres', runMsgs, hv, hs, Except.map]
          · by_cases hd : args.dry_run
            · simp [run, loadState, hres', runMsgs, hv, hs, hd, Except.map]
            · simp [run, loadState, hres', runMsgs, hv, hs, hd, Except.map]

theorem loadState_contract_witness :
    loadState none = .ok ([] : Cfde.State) ∧
    loadState (some (.record [("flow_id", PyVal.vstr "F")]))
      = .ok [("flow_id", PyVal.vstr "F")] ∧
    loadState (some .malformed) = .error () ∧
    run { EP_URL := "u", EP_UUID := "g" }
        { author_email := none, dry_run := false, verbose := false,
          service_instance := none }
        (some .malformed) "me@x" "n"
        (.exn { args := [], rep := "E", msg := "E" })
      = .error RunErr.stateParseError ∧
    (run { EP_URL := "u", EP_UUID := "g" }
        { author_email := none, dry_run := false, verbose := false,
          service_instance := none }
        none "me@x" "n"
        (.exn { args := [], rep := "E", msg := "E" })).map
        (fun o => (o.output, o.saved))
      = (run { EP_URL := "u", EP_UUID := "g" }
          { author_email := none, dry_run := false, verbose := false,
            service_instance := none }
          (some (.record [])) "me@x" "n"
          (.exn { args := [], rep := "E", msg := "E" })).map
          (fun o => (o.output, o.saved)) :=
  loadState_contract [("flow_id", PyVal.vstr "F")]
    { EP_URL := "u", EP_UUID := "g" }
    { author_email := none, dry_run := false, verbose := false,
      service_instance := none }
    "me@x" "n" (.exn { args := [], rep := "E", msg := "E" }) rfl

/-- C2: during logout, an invalid-grant failure from client construction
is absorbed and the command completes, printing the same terminal
logged-out message as the successful revocation path; any other exception
is re-raised; and on every exit path (success, absorbed invalid grant, or
re-raised exception) the stream bindings are restored to their original
values. -/
theorem logout_contract (s0 : Streams) (outcome : LogoutOutcome)
    (e : PyExn) :
    (∀ st msgs, logout s0 outcome = .ok (st, msgs) →
        st = s0 ∧ msgs.getLastD "" = "You are logged out.") ∧
    (∀ e' st, logout s0 outcome = .error (e', st) → st = s0) ∧
    (isInvalidGrant e = true →
        logout s0 (.ctorExn e) = logout s0 .ok ∧
        logout s0 (.ctorExn e)
          = .ok (s0, ["Logging out and revoking tokens",
                      "You are logged out."])) ∧
    (isInvalidGrant e = false →
        logout s0 (.ctorExn e) = .error (e, s0)) := by
  refine ⟨?_, ?_, ?_, ?_⟩
  · intro st msgs h
    cases outcome with
    | ok =>
        simp [logout] at h
        obtain ⟨h1, h2⟩ := h
        subst h1
        subst h2
        exact ⟨rfl, rfl⟩
    | ctorExn e' =>
        by_cases hg : isInvalidGrant e'
        · simp [logout, hg] at h
          obtain ⟨h1, h2⟩ := h
          subst h1
          subst h2
          exact ⟨rfl, rfl⟩
        · simp [logout, hg] at h
    | logoutExn e' =>
        by_cases hg : isInvalidGrant e'
        · simp [logout, hg] at h
          obtain ⟨h1, h2⟩ := h
          subst h1
          subst h2
          exact ⟨rfl, rfl⟩
        · simp [logout, hg] at h
  · intro e' st h
    cases outcome with
    | ok => simp [logout] at h
    | ctorExn e'' =>
        by_cases hg : isInvalidGrant e''
        · simp [logout, hg] at h
        · simp [logout, hg] at h
          exact h.2.symm
    | logoutExn e'' =>
        by_cases hg : isInvalidGrant e''
        · simp [logout, hg] at h
        · simp [logout, hg] at h
          exact h.2.symm
  · intro hg
    exact ⟨by simp [logout, hg], by simp [logout, hg]⟩
  · intro hg
    simp [logout, hg]

theorem logout_contract_witness :
    logout { stdin := .real, stdout := .real }
        (.ctorExn { args := [PyVal.vnone, PyVal.vnone,
                             PyVal.vstr "invalid_grant"],
                    rep := "E", msg := "E" })
      = .ok ({ stdin := .real, stdout := .real },
             ["Logging out and revoking tokens", "You are logged out."]) :=
  ((logout_contract { stdin := .real, stdout := .real } .ok
      { args := [PyVal.vnone, PyVal.vnone, PyVal.vstr "invalid_grant"],
        rep := "E", msg := "E" }).2.2.1 (by decide)).2

/-- C3: status resolution prefers explicit caller-supplied identifiers
and falls back to the persisted state only for fields not supplied
(`x or state.get(...)`); whenever the state file does not exist, or after
the fallback an identifier is still missing, the command prints the
distinct "no flow to query" message and performs no remote call. -/
theorem status_resolution_contract (args : StatusArgs)
    (file : FileContent) (outcome : StatusOutcome) (s : State)
    (fid fiid svc : PyVal) :
    (file = some (.record s) →
        resolveIds args.flow_id args.flow_instance_id file
          = .resolved fid fiid svc →
        fid = pyOr (optToVal args.flow_id) (getKey s "flow_id") ∧
        fiid = pyOr (optToVal args.flow_instance_id)
            (getKey s "flow_instance_id") ∧
        svc = getKey s "service_instance") ∧
    (file = none →
        ¬(optTruthy args.flow_id = true ∧
          optTruthy args.flow_instance_id = true) →
        status args file outcome = ([notStartedMsg], none)) ∧
    (file = some (.record s) →
        (truthy (pyOr (optToVal args.flow_id) (getKey s "flow_id")) = false ∨
         truthy (pyOr (optToVal args.flow_instance_id)
            (getKey s "flow_instance_id")) = false) →
        status args file outcome = ([notStartedMsg], none)) := by
  refine ⟨?_, ?_, ?_⟩
  · intro hf hres
    subst hf
    by_cases hb : optTruthy args.flow_id = true ∧
        optTruthy args.flow_instance_id = true
    · simp [resolveIds, hb] at hres
    · simp [resolveIds, hb] at hres
      by_cases ht : truthy (pyOr (optToVal args.flow_id)
            (getKey s "flow_id")) = true ∧
          truthy (pyOr (optToVal args.flow_instance_id)
            (getKey s "flow_instance_id")) = true
      · simp [ht] at hres
        exact ⟨hres.1.symm, hres.2.1.symm, hres.2.2.symm⟩
      · simp [ht] at hres
  · intro hf hb
    subst hf
    simp [status, resolveIds, hb]
  · intro hf ht
    subst hf
    have hb : ¬(optTruthy args.flow_id = true ∧
        optTruthy args.flow_instance_id = true) := by
      rcases ht with ht | ht
      · intro hb
        have : truthy (pyOr (optToVal args.flow_id) (getKey s "flow_id"))
            = true := by
          simp [pyOr, optTruthy] at hb ⊢
          simp [hb.1]
        simp [this] at ht
      · intro hb
        have : truthy (pyOr (optToVal args.flow_instance_id)
            (getKey s "flow_instance_id")) = true := by
          simp [pyOr, optTruthy] at hb ⊢
          simp [hb.2]
        simp [this] at ht
    have hnr : ¬(truthy (pyOr (optToVal args.flow_id)
          (getKey s "flow_id")) = true ∧
        truthy (pyOr (optToVal args.flow_instance_id)
          (getKey s "flow_instance_id")) = true) := by
      rcases ht with ht | ht
      · intro hc
        simp [ht] at hc
      · intro hc
        simp [ht] at hc
    simp [status, resolveIds, hb, hnr]

theorem status_resolution_contract_witness :
    status { flow_id := none, flow_instance_id := none, raw := false }
        none (.res { clean_status := "c", rawDump := "r" })
      = ([notStartedMsg], none) :=
  (status_resolution_contract
      { flow_id := none, flow_instance_id := none, raw := false }
      none (.res { clean_status := "c", rawDump := "r" }) []
      PyVal.vnone PyVal.vnone PyVal.vnone).2.1 rfl (by decide)

theorem getKey_runUpdatedState_other (cfg : Config) (args : RunArgs)
    (s1 : State) (r : FlowResult) (k : String)
    (h1 : k ≠ "service_instance") (h2 : k ≠ "flow_id")
    (h3 : k ≠ "flow_instance_id") (h4 : k ≠ "http_link")
    (h5 : k ≠ "globus_web_link") :
    getKey (runUpdatedState cfg args s1 r) k = getKey s1 k := by
  simp only [runUpdatedState]
  rw [getKey_setKey_ne _ _ _ _ (Ne.symm h5),
      getKey_setKey_ne _ _ _ _ (Ne.symm h4),
      getKey_setKey_ne _ _ _ _ (Ne.symm h3),
      getKey_setKey_ne _ _ _ _ (Ne.symm h2),
      getKey_setKey_ne _ _ _ _ (Ne.symm h1)]

theorem getKey_runUpdatedState (cfg : Config) (args : RunArgs)
    (s1 : State) (r : FlowResult) :
    getKey (runUpdatedState cfg args s1 r) "service_instance"
      = optToVal args.service_instance ∧
    getKey (runUpdatedState cfg args s1 r) "flow_id"
      = PyVal.vstr r.flow_id ∧
    getKey (runUpdatedState cfg args s1 r) "flow_instance_id"
      = PyVal.vstr r.flow_instance_id ∧
    getKey (runUpdatedState cfg args s1 r) "author_email"
      = getKey s1 "author_email" := by
  refine ⟨?_, ?_, ?_, ?_⟩
  · simp only [runUpdatedState]
    rw [getKey_setKey_ne _ _ _ _ (by decide),
        getKey_setKey_ne _ _ _ _ (by decide),
        getKey_setKey_ne _ _ _ _ (by decide),
        getKey_setKey_ne _ _ _ _ (by decide),
        getKey_setKey_same]
  · simp only [runUpdatedState]
    rw [getKey_setKey_ne _ _ _ _ (by decide),
        getKey_setKey_ne _ _ _ _ (by decide),
        getKey_setKey_ne _ _ _ _ (by decide),
        getKey_setKey_same]
  · simp only [runUpdatedState]
    rw [getKey_setKey_ne _ _ _ _ (by decide),
        getKey_setKey_ne _ _ _ _ (by decide),
        getKey_setKey_same]
  · exact getKey_runUpdatedState_other cfg args s1 r "author_email"
      (by decide) (by decide) (by decide) (by decide) (by decide)

theorem run_success_eq (cfg : Config) (args : RunArgs) (S : State)
    (emailInput saveInput : String) (r : FlowResult) (em : PyVal)
    (sv : Bool)
    (hres : resolveEmail args.author_email (getKey S "author_email")
        emailInput saveInput = (em, some sv))
    (hsucc : r.success = true) (hdry : args.dry_run = false) :
    run cfg args (some (.record S)) emailInput saveInput (.res r)
      = .ok { file := some (.record (runUpdatedState cfg args
                (if sv then setKey S "author_email" em else S) r)),
              saved := some (runUpdatedState cfg args
                (if sv then setKey S "author_email" em else S) r),
              output := runMsgs args (some (.record S)) S em sv
                ++ [r.message] ++ runLinkMsgs cfg args r } := by
  simp [run, loadState, hres, hsucc, hdry, writeFile, applyOps, saveOps,
    applyOp]

/-- C5: merge invariant. For every record S on disk and a successful
non-dry-run submission, the save performed by `run` followed by `load`
yields a record equal to S with the override fields overwritten
(`service_instance`, `flow_id`, `flow_instance_id`, `http_link`,
`globus_web_link`, and `author_email` when the save was requested) and
every other field of S — including unknown extra fields — unchanged. -/
theorem run_save_load_merge (cfg : Config) (args : RunArgs) (S : State)
    (emailInput saveInput : String) (r : FlowResult) (em : PyVal)
    (sv : Bool)
    (hres : resolveEmail args.author_email (getKey S "author_email")
        emailInput saveInput = (em, some sv))
    (hsucc : r.success = true) (hdry : args.dry_run = false) :
    ∃ out final,
      run cfg args (some (.record S)) emailInput saveInput (.res r)
        = .ok out ∧
      loadState out.file = .ok final ∧
      (∀ k, k ∉ (["author_email", "service_instance", "flow_id",
                  "flow_instance_id", "http_link",
                  "globus_web_link"] : List String) →
        getKey final k = getKey S k) ∧
      getKey final "flow_id" = PyVal.vstr r.flow_id ∧
      getKey final "flow_instance_id" = PyVal.vstr r.flow_instance_id ∧
      getKey final "service_instance" = optToVal args.service_instance ∧
      getKey final "author_email"
        = (if sv then em else getKey S "author_email") := by
  refine ⟨_, _,
    run_success_eq cfg args S emailInput saveInput r em sv hres hsucc hdry,
    rfl, ?_, ?_, ?_, ?_, ?_⟩
  · intro k hk
    simp only [List.mem_cons, List.not_mem_nil, or_false] at hk
    push_neg at hk
    obtain ⟨hk1, hk2, hk3, hk4, hk5, hk6⟩ := hk
    rw [getKey_runUpdatedState_other cfg args _ r k hk2 hk3 hk4 hk5 hk6]
    cases sv with
    | false => rfl
    | true => exact getKey_setKey_ne S "author_email" k em (Ne.symm hk1)
  · exact (getKey_runUpdatedState cfg args _ r).2.1
  · exact (getKey_runUpdatedState cfg args _ r).2.2.1
  · exact (getKey_runUpdatedState cfg args _ r).1
  · rw [(getKey_runUpdatedState cfg args _ r).2.2.2]
    cases sv with
    | false => rfl
    | true => simp [getKey_setKey_same]

theorem run_save_load_merge_witness :
    ∃ out final,
      run { EP_URL := "u", EP_UUID := "g" }
          { author_email := none, dry_run := false, verbose := false,
            service_instance := some "svc" }
          (some (.record [("author_email", PyVal.vstr "a@x"),
                          ("extra_field", PyVal.vnum 7)]))
          "" ""
          (.res { success := true, error := "", message := "m",
                  fair_re_dest_path := "/p/b.zip", flow_id := "F9",
                  flow_instance_id := "I9" })
        = .ok out ∧
      loadState out.file = .ok final ∧
      (∀ k, k ∉ (["author_email", "service_instance", "flow_id",
                  "flow_instance_id", "http_link",
                  "globus_web_link"] : List String) →
        getKey final k
          = getKey [("author_email", PyVal.vstr "a@x"),
                    ("extra_field", PyVal.vnum 7)] k) ∧
      getKey final "flow_id" = PyVal.vstr "F9" ∧
      getKey final "flow_instance_id" = PyVal.vstr "I9" ∧
      getKey final "service_instance" = optToVal (some "svc") ∧
      getKey final "author_email"
        = (if false then PyVal.vstr "a@x"
           else getKey [("author_email", PyVal.vstr "a@x"),
                        ("extra_field", PyVal.vnum 7)] "author_email") :=
  run_save_load_merge { EP_URL := "u", EP_UUID := "g" }
    { author_email := none, dry_run := false, verbose := false,
      service_instance := some "svc" }
    [("author_email", PyVal.vstr "a@x"), ("extra_field", PyVal.vnum 7)]
    "" ""
    { success := true, error := "", message := "m",
      fair_re_dest_path := "/p/b.zip", flow_id := "F9",
      flow_instance_id := "I9" }
    (PyVal.vstr "a@x") false (by decide) rfl rfl

/-- C7: an exception raised by the workflow client call is caught and
reported as a soft failure (the command completes normally, printing the
error, with no state-file write); a structured result with success false
is reported through its carried error message and the command stops
without persisting anything. -/
theorem run_soft_failure (cfg : Config) (args : RunArgs)
    (file : FileContent) (S : State) (emailInput saveInput : String)
    (e : PyExn) (r : FlowResult) (em : PyVal) (sv : Bool)
    (hload : loadState file = .ok S)
    (hres : resolveEmail args.author_email (getKey S "author_email")
        emailInput saveInput = (em, some sv))
    (hfail : r.success = false) :
    run cfg args file emailInput saveInput (.exn e)
      = .ok { file := file, saved := none,
              output := runMsgs args file S em sv
                ++ ["Error while starting Flow: " ++ e.rep] } ∧
    run cfg args file emailInput saveInput (.res r)
      = .ok { file := file, saved := none,
              output := runMsgs args file S em sv
                ++ ["Error during Flow startup: " ++ r.error] } := by
  constructor
  · simp [run, hload, hres]
  · simp [run, hload, hres, hfail]

theorem run_soft_failure_witness :
    run { EP_URL := "u", EP_UUID := "g" }
        { author_email := none, dry_run := false, verbose := false,
          service_instance := none }
        (some (.record [("author_email", PyVal.vstr "a@x")])) "x" "y"
        (.exn { args := [], rep := "RE", msg := "SE" })
      = .ok { file := some (.record [("author_email", PyVal.vstr "a@x")]),
              saved := none,
              output := runMsgs
                  { author_email := none, dry_run := false,
                    verbose := false, service_instance := none }
                  (some (.record [("author_email", PyVal.vstr "a@x")]))
                  [("author_email", PyVal.vstr "a@x")]
                  (PyVal.vstr "a@x") false
                ++ ["Error while starting Flow: " ++ "RE"] } ∧
    run { EP_URL := "u", EP_UUID := "g" }
        { author_email := none, dry_run := false, verbose := false,
          service_instance := none }
        (some (.record [("author_email", PyVal.vstr "a@x")])) "x" "y"
        (.res { success := false, error := "boom", message := "",
                fair_re_dest_path := "", flow_id := "",
                flow_instance_id := "" })
      = .ok { file := some (.record [("author_email", PyVal.vstr "a@x")]),
              saved := none,
              output := runMsgs
                  { author_email := none, dry_run := false,
                    verbose := false, service_instance := none }
                  (some (.record [("author_email", PyVal.vstr "a@x")]))
                  [("author_email", PyVal.vstr "a@x")]
                  (PyVal.vstr "a@x") false
                ++ ["Error during Flow startup: " ++ "boom"] } :=
  run_soft_failure { EP_URL := "u", EP_UUID := "g" }
    { author_email := none, dry_run := false, verbose := false,
      service_instance := none }
    (some (.record [("author_email", PyVal.vstr "a@x")]))
    [("author_email", PyVal.vstr "a@x")] "x" "y"
    { args := [], rep := "RE", msg := "SE" }
    { success := false, error := "boom", message := "",
      fair_re_dest_path := "", flow_id := "", flow_instance_id := "" }
    (PyVal.vstr "a@x") false rfl (by decide) rfl

/-- C8: on a dry run the state file is never written; the record is
written only when the submission succeeded and the run is not a dry run,
and the written record's author_email field holds the newly resolved
email exactly when should_save was true (and the loaded record's value
otherwise). -/
theorem run_dry_run_and_email_persistence (cfg : Config) (args : RunArgs)
    (file : FileContent) (S : State) (emailInput saveInput : String)
    (flow : FlowOutcome) (em : PyVal) (sv : Bool) (out : RunOut)
    (hload : loadState file = .ok S)
    (hres : resolveEmail args.author_email (getKey S "author_email")
        emailInput saveInput = (em, some sv))
    (hrun : run cfg args file emailInput saveInput flow = .ok out) :
    (args.dry_run = true → out.saved = none ∧ out.file = file) ∧
    (∀ w, out.saved = some w →
        args.dry_run = false ∧
        (∃ r, flow = .res r ∧ r.success = true) ∧
        getKey w "author_email"
          = (if sv then em else getKey S "author_email")) := by
  cases flow with
  | exn e =>
      simp [run, hload, hres] at hrun
      subst hrun
      simp
  | res r =>
      by_cases hs : r.success = false
      · simp [run, hload, hres, hs] at hrun
        subst hrun
        simp
      · by_cases hd : args.dry_run = true
        · simp [run, hload, hres, hs, hd] at hrun
          subst hrun
          simp
        · simp [run, hload, hres, hs, hd] at hrun
          subst hrun
          constructor
          · intro h
            exact absurd h hd
          · intro w hw
            simp at hw
            refine ⟨by simpa using hd, ⟨r, rfl, by simpa using hs⟩, ?_⟩
            subst hw
            rw [(getKey_runUpdatedState cfg args _ r).2.2.2]
            cases sv with
            | false => rfl
            | true => simp [getKey_setKey_same]

theorem run_dry_run_witness :
    ∃ out, run { EP_URL := "u", EP_UUID := "g" }
        { author_email := none, dry_run := true, verbose := false,
          service_instance := none }
        (some (.record [("author_email", PyVal.vstr "a@x")])) "x" "y"
        (.res { success := true, error := "", message := "m",
                fair_re_dest_path := "/p/b.zip", flow_id := "F",
                flow_instance_id := "I" })
      = .ok out ∧ out.saved = none ∧
      out.file = some (.record [("author_email", PyVal.vstr "a@x")]) :=
  ⟨_, rfl,
    (run_dry_run_and_email_persistence { EP_URL := "u", EP_UUID := "g" }
      { author_email := none, dry_run := true, verbose := false,
        service_instance := none }
      (some (.record [("author_email", PyVal.vstr "a@x")]))
      [("author_email", PyVal.vstr "a@x")] "x" "y"
      (.res { success := true, error := "", message := "m",
              fair_re_dest_path := "/p/b.zip", flow_id := "F",
              flow_instance_id := "I" })
      (PyVal.vstr "a@x") false _ rfl (by decide) rfl).1 rfl⟩

/-- C10: a successful non-dry-run submission writes the current
invocation's service-instance override verbatim into the persisted
record — null when no override was supplied — overwriting any earlier
saved value; a subsequent status invocation with no explicit identifiers
resolves against that record and reads back the null. -/
theorem run_overwrites_service_instance (cfg : Config) (args : RunArgs)
    (S : State) (emailInput saveInput : String) (r : FlowResult)
    (em : PyVal) (sv : Bool)
    (hres : resolveEmail args.author_email (getKey S "author_email")
        emailInput saveInput = (em, some sv))
    (hsucc : r.success = true) (hdry : args.dry_run = false)
    (hsvc : args.service_instance = none)
    (hfid : r.flow_id ≠ "") (hfiid : r.flow_instance_id ≠ "") :
    ∃ out w,
      run cfg args (some (.record S)) emailInput saveInput (.res r)
        = .ok out ∧
      out.saved = some w ∧
      getKey w "service_instance" = PyVal.vnone ∧
      resolveIds none none out.file
        = .resolved (PyVal.vstr r.flow_id) (PyVal.vstr r.flow_instance_id)
            PyVal.vnone := by
  refine ⟨_, _,
    run_success_eq cfg args S emailInput saveInput r em sv hres hsucc hdry,
    rfl, ?_, ?_⟩
  · rw [(getKey_runUpdatedState cfg args _ r).1, hsvc]
    rfl
  · have h := getKey_runUpdatedState cfg args
        (if sv then setKey S "author_email" em else S) r
    simp [resolveIds, optTruthy, optToVal, pyOr, truthy, h.1, h.2.1,
      h.2.2.1, hsvc, hfid, hfiid]

theorem run_overwrites_service_instance_witness :
    ∃ out w,
      run { EP_URL := "u", EP_UUID := "g" }
          { author_email := none, dry_run := false, verbose := false,
            service_instance := none }
          (some (.record [("service_instance", PyVal.vstr "old"),
                          ("author_email", PyVal.vstr "a@x")]))
          "x" "y"
          (.res { success := true, error := "", message := "m",
                  fair_re_dest_path := "/p/b.zip", flow_id := "F9",
                  flow_instance_id := "I9" })
        = .ok out ∧
      out.saved = some w ∧
      getKey w "service_instance" = PyVal.vnone ∧
      resolveIds none none out.file
        = .resolved (PyVal.vstr "F9") (PyVal.vstr "I9") PyVal.vnone :=
  run_overwrites_service_instance { EP_URL := "u", EP_UUID := "g" }
    { author_email := none, dry_run := false, verbose := false,
      service_instance := none }
    [("service_instance", PyVal.vstr "old"),
     ("author_email", PyVal.vstr "a@x")] "x" "y"
    { success := true, error := "", message := "m",
      fair_re_dest_path := "/p/b.zip", flow_id := "F9",
      flow_instance_id := "I9" }
    (PyVal.vstr "a@x") false (by decide) rfl rfl rfl (by decide)
    (by decide)

end Cfde
